import Mathlib

/-!
Shallow embedding of the kfabric NFS/RDMA verbs shim (nfsordmass).

Each definition mirrors one C function or data structure of the repository:
  - kfi_connection.c   : VNI mount-option parsing and authentication-key resolution
  - kfi_verbs_compat.c : queue-pair state changes (kfi_modify_qp)
  - kfi_ops.c          : work-request chain translation (kfi_post_send and helpers)
  - kfi_completion.c   : completion translation (kfi_poll_cq)
  - kfi_key_mapping.c  : 32-bit / 64-bit memory-key translation
  - kfi_memory.c       : memory-region cache (kfi_mr_cache_get / put / flush)

External collaborators (the kfabric provider, the kernel allocator, the
rbtree / hashtable libraries) enter the model as explicit parameters or as
the abstract results the C code branches on.  Machine integers are modelled
as Nat / Int with explicit reduction modulo 2^w where the C code can wrap.
-/

namespace KfiNfs

/-! ## Error codes (Linux errno values and kfabric codes from kfi_errno.h) -/

def EAGAIN : Int := 11
def ENOMEM : Int := 12
def EACCES : Int := 13
def EEXIST : Int := 17
def EINVAL : Int := 22
def ENOENT : Int := 2
def ERANGE : Int := 34
def EOPNOTSUPP : Int := 95

/-- Token KFI_ERRNO_OFFSET of kfi_errno.h is 256; KFI_EAGAIN = 256 + 1. -/
def KFI_EAGAIN : Int := 257

/-- Token KFI_EACCES of kfi_errno.h: 256 + 2. -/
def KFI_EACCES : Int := 258

/-- Token KFI_ECANCELED of kfi_errno.h: 256 + 3. -/
def KFI_ECANCELED : Int := 259

/-- Provider error code for truncation (KFI_ERRNO_PROV_OFFSET + 1, the
in-tree compatibility definition spelt KKFI_ETRUNC in kfi_errno.h). -/
def KFI_ETRUNC : Int := 513

/-- Constant KFI_MAX_SGE of kfi_internal.h. -/
def KFI_MAX_SGE : Nat := 16

/-- Constant UINT16_MAX used by the VNI range check. -/
def UINT16_MAX : Nat := 65535

/-! ## VNI mount-option parsing (kfi_connection.c, kfi_parse_vni_from_options)

The C function receives a C string (possibly NULL) and an out-parameter
`uint16_t *vni_out`.  We model the input as `Option String` (none = NULL)
and the result as the pair of the returned `int` and the value written to
`*vni_out` (`none` = the out-parameter was never written).
-/

/-- C strings are modelled as character lists (`String.toList` of the
literal).  Model of the kernel's `kstrtoul(s, 10, &v)`: an optional
leading plus sign, then one or more decimal digits, optionally followed by
a single trailing newline; the value must fit in an unsigned long
(64 bits).  Returns the parsed value or the error code `kstrtoul` reports
(-EINVAL on malformed input, -ERANGE on overflow). -/
def kstrtoul10 (s : List Char) : Except Int Nat :=
  let s1 := if s.getLast? = some (Char.ofNat 10) then s.dropLast else s
  let s2 := match s1 with
    | '+' :: t => t
    | t => t
  if s2.isEmpty then Except.error (-EINVAL)
  else if s2.all Char.isDigit then
    let v := s2.foldl (fun a c => a * 10 + (c.toNat - 48)) 0
    if v < 2 ^ 64 then Except.ok v else Except.error (-ERANGE)
  else Except.error (-EINVAL)

/-- Model of the `strsep(&opt, ",")` tokenisation: split at every comma
(an empty input yields one empty token, as strsep does). -/
def splitOnComma : List Char → List (List Char)
  | [] => [[]]
  | c :: cs =>
    if c = ',' then [] :: splitOnComma cs
    else
      match splitOnComma cs with
      | [] => [[c]]
      | t :: ts => (c :: t) :: ts

/-- Model of the `strchr(p, '=')` key/value split: the key is the text
before the first `=`, the value everything after it; `none` when the token
has no `=` at all. -/
def splitFirstEq : List Char → Option (List Char × List Char)
  | [] => none
  | c :: cs =>
    if c = '=' then some ([], cs)
    else
      match splitFirstEq cs with
      | none => none
      | some kv => some (c :: kv.1, kv.2)

/-- The option key the parser reacts to (`strcmp(key, "vni") == 0`). -/
def vniKey : List Char := ['v', 'n', 'i']

/-- Loop body of kfi_parse_vni_from_options: walk the comma-separated
tokens (strsep), skip empty tokens and tokens without `=`, and on the
first `vni` key run `kstrtoul`; the function then breaks out of the loop
unconditionally and returns `kstrtoul`'s code, having written `*vni_out`
only when the parse succeeded and the value passed the UINT16_MAX check. -/
def parseVniTokens : List (List Char) → Int × Option Nat
  | [] => (-EINVAL, none)
  | p :: rest =>
    if p = [] then parseVniTokens rest
    else
      match splitFirstEq p with
      | none => parseVniTokens rest
      | some kv =>
        if kv.1 = vniKey then
          match kstrtoul10 kv.2 with
          | Except.ok v =>
            if v ≤ UINT16_MAX then ((0 : Int), some v) else ((0 : Int), none)
          | Except.error e => (e, none)
        else parseVniTokens rest

/-- Embedding of kfi_parse_vni_from_options.  Input `none` is a NULL
options pointer: `kstrdup(NULL)` yields NULL in the kernel, so the
function returns -ENOMEM before the loop is reached.  The pair is the
returned `int` and the value written to `*vni_out` (`none` = the
out-parameter was never written). -/
def kfi_parse_vni_from_options (options : Option (List Char)) : Int × Option Nat :=
  match options with
  | none => (-ENOMEM, none)
  | some s => parseVniTokens (splitOnComma s)

/-! ## Authentication-key resolution (kfi_connection.c, kfi_get_auth_key)

The QP's `vni_from_mount` field holds the mount-option VNI (0 = not set,
per the struct kfi_qp documentation).  The provider's default-VNI query
`kfi_query_default_vni` is declared in kfi_internal.h but lives outside
the translation unit; its outcome enters the model as a parameter
`defVni : Option Int` (`some v` = query returned 0 with value `v`,
`none` = query failed).  `allocOk` is the outcome of the auth-key
`kzalloc`.  The result pairs the returned `int` with the QP's final
`auth_key` contents (`some vni`, or `none` when the key is NULL). -/
def kfi_get_auth_key (vniFromMount : Nat) (allocOk : Bool) (defVni : Option Int) :
    Int × Option Nat :=
  if allocOk = false then (-ENOMEM, none)
  else if vniFromMount ≠ 0 then ((0 : Int), some vniFromMount)
  else
    match defVni with
    | some v => ((0 : Int), some ((v % 65536).toNat))
    | none => (-EACCES, none)

/-! ## Queue-pair state changes (kfi_verbs_compat.c, kfi_modify_qp) -/

/-- Verbs queue-pair states (enum ib_qp_state). -/
inductive IbQpState
  | reset
  | init
  | rtr
  | rts
  | sqd
  | sqe
  | err
  deriving DecidableEq, Repr

/-- The slice of struct kfi_qp that kfi_modify_qp reads and writes. -/
structure KfiQp where
  state : IbQpState
  vniFromMount : Nat
  authVni : Option Nat
  deriving DecidableEq, Repr

/-- Environment of one kfi_modify_qp call: which attr_mask bits are set and
what the external calls (auth-key kzalloc, default-VNI query, kfi_setup_av,
kfi_enable) return. -/
structure ModifyEnv where
  maskHasState : Bool
  maskHasAv : Bool
  authAllocOk : Bool
  defaultVni : Option Int
  setupAvRet : Int
  enableRet : Int
  deriving DecidableEq, Repr

/-- Embedding of kfi_modify_qp.  The C function switches on the requested
state without consulting the current state: INIT resolves the auth key,
RTR optionally sets up the address vector, RTS enables the endpoint, ERR
just marks the QP; RESET/SQD/SQE fall to the default -EINVAL case.  On any
failure the function returns before assigning `kqp->state`. -/
def kfi_modify_qp (qp : KfiQp) (target : IbQpState) (env : ModifyEnv) : Int × KfiQp :=
  if env.maskHasState = false then ((0 : Int), qp)
  else
    match target with
    | IbQpState.init =>
      let ra := kfi_get_auth_key qp.vniFromMount env.authAllocOk env.defaultVni
      let qp1 := { qp with authVni := ra.2 }
      if ra.1 ≠ 0 then (ra.1, qp1)
      else ((0 : Int), { qp1 with state := IbQpState.init })
    | IbQpState.rtr =>
      if env.maskHasAv && env.setupAvRet ≠ 0 then (env.setupAvRet, qp)
      else ((0 : Int), { qp with state := IbQpState.rtr })
    | IbQpState.rts =>
      if env.enableRet ≠ 0 then (env.enableRet, qp)
      else ((0 : Int), { qp with state := IbQpState.rts })
    | IbQpState.err => ((0 : Int), { qp with state := IbQpState.err })
    | _ => (-EINVAL, qp)

/-! ## Work-request chain translation (kfi_ops.c)

A verbs send work request carries an opcode, a scatter-gather count and an
opaque identifier.  The fabric's answer to the (at most one) submission the
helpers make for a request is attached to the request as `fabricRet`, the
`ssize_t` that kfi_send / kfi_sendv / kfi_write / kfi_writev / kfi_read /
kfi_readv would return for it.  Each helper reports the fabric calls it
made as a list of `Attempt`s; an attempt was accepted by the fabric
exactly when its `ret` is non-negative. -/

/-- Verbs work-request opcodes (enum ib_wr_opcode, the cases kfi_ops.c
distinguishes). -/
inductive IbWrOpcode
  | send
  | send_with_imm
  | rdma_write
  | rdma_write_with_imm
  | rdma_read
  | send_with_inv
  | atomic_cmp_and_swp
  | atomic_fetch_and_add
  deriving DecidableEq, Repr

/-- One verbs send work request (struct ib_send_wr restricted to the fields
kfi_ops.c reads), together with the fabric's answer to its submission. -/
structure SendWr where
  wrId : Nat
  opcode : IbWrOpcode
  numSge : Nat
  fabricRet : Int
  deriving DecidableEq, Repr

/-- A fabric operation as submitted by the helpers of kfi_ops.c, tagged
with the opaque work-request identifier forwarded as its context. -/
inductive FabricOp
  | send (wrId : Nat)
  | sendv (wrId : Nat) (n : Nat)
  | write (wrId : Nat)
  | writev (wrId : Nat) (n : Nat)
  | read (wrId : Nat)
  | readv (wrId : Nat) (n : Nat)
  deriving DecidableEq, Repr

/-- A fabric call made by the translator and the `ssize_t` the fabric
returned for it. -/
structure Attempt where
  op : FabricOp
  ret : Int
  deriving DecidableEq, Repr

/-- Common tail of the helpers: `ret < 0 && ret != -KFI_EAGAIN` propagates
the fabric error, `-KFI_EAGAIN` becomes `-EAGAIN`, anything else is 0. -/
def sendRetOf (r : Int) : Int :=
  if r < 0 ∧ r ≠ -KFI_EAGAIN then r
  else if r = -KFI_EAGAIN then -EAGAIN
  else 0

/-- Embedding of kfi_do_send: more than one SGE takes the vectored path
(rejecting more than KFI_MAX_SGE with -EINVAL before any fabric call),
otherwise a single contiguous kfi_send is issued. -/
def kfi_do_send (wr : SendWr) : Int × List Attempt :=
  if 1 < wr.numSge then
    if KFI_MAX_SGE < wr.numSge then (-EINVAL, [])
    else (sendRetOf wr.fabricRet, [⟨FabricOp.sendv wr.wrId wr.numSge, wr.fabricRet⟩])
  else (sendRetOf wr.fabricRet, [⟨FabricOp.send wr.wrId, wr.fabricRet⟩])

/-- Embedding of kfi_do_rdma_write (same shape as kfi_do_send with the
write fabric calls). -/
def kfi_do_rdma_write (wr : SendWr) : Int × List Attempt :=
  if 1 < wr.numSge then
    if KFI_MAX_SGE < wr.numSge then (-EINVAL, [])
    else (sendRetOf wr.fabricRet, [⟨FabricOp.writev wr.wrId wr.numSge, wr.fabricRet⟩])
  else (sendRetOf wr.fabricRet, [⟨FabricOp.write wr.wrId, wr.fabricRet⟩])

/-- Embedding of kfi_do_rdma_read (same shape, inverted direction). -/
def kfi_do_rdma_read (wr : SendWr) : Int × List Attempt :=
  if 1 < wr.numSge then
    if KFI_MAX_SGE < wr.numSge then (-EINVAL, [])
    else (sendRetOf wr.fabricRet, [⟨FabricOp.readv wr.wrId wr.numSge, wr.fabricRet⟩])
  else (sendRetOf wr.fabricRet, [⟨FabricOp.read wr.wrId, wr.fabricRet⟩])

/-- Embedding of kfi_do_send_with_inv: the fabric has no invalidate
primitive, so the request degrades to a plain send. -/
def kfi_do_send_with_inv (wr : SendWr) : Int × List Attempt :=
  kfi_do_send wr

/-- One iteration of the kfi_post_send chain loop: the switch on the
work-request opcode.  IB_WR_SEND_WITH_IMM has no case of its own in the C
switch and falls to the default -EOPNOTSUPP branch, as do the atomics. -/
def wrStep (wr : SendWr) : Int × List Attempt :=
  match wr.opcode with
  | IbWrOpcode.send => kfi_do_send wr
  | IbWrOpcode.rdma_write => kfi_do_rdma_write wr
  | IbWrOpcode.rdma_write_with_imm => kfi_do_rdma_write wr
  | IbWrOpcode.rdma_read => kfi_do_rdma_read wr
  | IbWrOpcode.send_with_inv => kfi_do_send_with_inv wr
  | _ => (-EOPNOTSUPP, [])

/-- The kfi_post_send loop over the work-request chain: stop at the first
request whose step returns non-zero, reporting its position through
bad_wr (modelled as the index into the chain; `none` = bad_wr was left
unassigned).  The attempt list concatenates the fabric calls of the
processed requests in order. -/
def postSendGo : List SendWr → Int × Option Nat × List Attempt
  | [] => ((0 : Int), none, [])
  | wr :: rest =>
    let r := wrStep wr
    if r.1 = 0 then
      let t := postSendGo rest
      (t.1, Option.map (fun i => i + 1) t.2.1, r.2 ++ t.2.2)
    else (r.1, some 0, r.2)

/-- Embedding of kfi_post_send.  `epOk` models the `!kqp || !kqp->ep`
guard; when it fails the head of the chain is reported as bad_wr and
-EINVAL returned before any processing. -/
def kfi_post_send (epOk : Bool) (chain : List SendWr) : Int × Option Nat × List Attempt :=
  if epOk = false then
    (-EINVAL, if chain.isEmpty then none else some 0, [])
  else postSendGo chain

/-! ## Completion translation (kfi_completion.c) -/

/-- Verbs work-completion status values used by kfi_errno_to_ib_status. -/
inductive IbWcStatus
  | success
  | loc_len_err
  | loc_prot_err
  | wr_flush_err
  | general_err
  deriving DecidableEq, Repr

/-- Verbs work-completion opcodes produced by kfi_poll_cq. -/
inductive IbWcOpcode
  | send
  | rdma_write
  | rdma_read
  | recv
  deriving DecidableEq, Repr

/-- One native completion entry (struct kfi_cq_data_entry restricted to the
fields kfi_poll_cq reads).  The 64-bit flag word is abstracted to the four
mask tests the code performs on it (`flags & KFI_SEND`, `& KFI_RECV`,
`& KFI_READ`, `& KFI_WRITE`); the mask constants come from the external
kfabric headers and are distinct bits, so the four Booleans carry exactly
the information the code consumes. -/
structure CqDataEntry where
  opContext : Nat
  len : Nat
  hasSendFlag : Bool
  hasRecvFlag : Bool
  hasReadFlag : Bool
  hasWriteFlag : Bool
  deriving DecidableEq, Repr

/-- One native error entry (struct kfi_cq_err_entry restricted to the
fields kfi_poll_cq reads). -/
structure CqErrEntry where
  opContext : Nat
  err : Int
  provErrno : Nat
  deriving DecidableEq, Repr

/-- A verbs work completion as filled in by kfi_poll_cq.  Fields the C code
leaves unwritten on a given path are `none`. -/
structure IbWc where
  wrId : Nat
  status : IbWcStatus
  byteLen : Option Nat
  opcode : Option IbWcOpcode
  vendorErr : Option Nat
  deriving DecidableEq, Repr

/-- Embedding of kfi_errno_to_ib_status: the switch is on `-kfi_err`, so a
fabric error reported as a negative code selects its positive case;
everything unlisted is a general error. -/
def kfi_errno_to_ib_status (kfiErr : Int) : IbWcStatus :=
  if -kfiErr = 0 then IbWcStatus.success
  else if -kfiErr = KFI_ETRUNC then IbWcStatus.loc_len_err
  else if -kfiErr = KFI_EACCES then IbWcStatus.loc_prot_err
  else if -kfiErr = KFI_ECANCELED then IbWcStatus.wr_flush_err
  else IbWcStatus.general_err

/-- The opcode derivation of the kfi_poll_cq success loop: test the flag
bits in the order send, recv, read, write, defaulting to send. -/
def kfiFlagsToIbOpcode (e : CqDataEntry) : IbWcOpcode :=
  if e.hasSendFlag then IbWcOpcode.send
  else if e.hasRecvFlag then IbWcOpcode.recv
  else if e.hasReadFlag then IbWcOpcode.rdma_read
  else if e.hasWriteFlag then IbWcOpcode.rdma_write
  else IbWcOpcode.send

/-- The per-entry body of the kfi_poll_cq success loop. -/
def renderSuccess (e : CqDataEntry) : IbWc :=
  { wrId := e.opContext
    status := IbWcStatus.success
    byteLen := some e.len
    opcode := some (kfiFlagsToIbOpcode e)
    vendorErr := none }

/-- Outcome of the bulk `kfi_cq_read` call, together with the one-entry
`kfi_cq_readerr` result consulted on the non-transient error path
(`none` = readerr did not return 1). -/
inductive CqReadRes
  | ok (entries : List CqDataEntry)
  | again
  | err (e : Int) (errEntry : Option CqErrEntry)
  deriving DecidableEq, Repr

/-- Embedding of kfi_poll_cq over the fabric's answer to the bulk read:
transient yields zero completions; a non-transient error renders the one
error entry (status via kfi_errno_to_ib_status, vendor_err from the
provider code, byte length and opcode left unwritten); n entries yield n
success completions. -/
def kfi_poll_cq (res : CqReadRes) : Int × List IbWc :=
  match res with
  | CqReadRes.ok entries => ((entries.length : Int), entries.map renderSuccess)
  | CqReadRes.again => ((0 : Int), [])
  | CqReadRes.err _ none => ((0 : Int), [])
  | CqReadRes.err _ (some ee) =>
    ((1 : Int),
     [{ wrId := ee.opContext
        status := kfi_errno_to_ib_status ee.err
        byteLen := none
        opcode := none
        vendorErr := some ee.provErrno }])

/-! ## 32-bit / 64-bit key translation (kfi_key_mapping.c)

The rbtree keyed by the 32-bit key and the hash table keyed by the 64-bit
key always hold the same set of entries; the state carries that set once,
as a list in hash-insertion order (`hash_add` prepends to its bucket, so
the most recently registered entry with a given 64-bit key is found
first by `hash_for_each_possible`).  The allocation counter `next_ib_key`
is a 32-bit quantity, so `atomic_inc_return` is reduction modulo 2^32. -/

structure KeyMapState where
  nextIbKey : Nat
  entries : List (Nat × Nat)
  deriving DecidableEq, Repr

/-- Embedding of kfi_key_register.  `allocOk` is the outcome of the entry
kzalloc.  The counter is bumped before the duplicate check; a duplicate
32-bit key (possible only after counter wrap-around) frees the entry and
returns -EEXIST, leaving both structures unchanged.  On success the entry
enters both structures and the fresh key is written out. -/
def kfi_key_register (s : KeyMapState) (kfiKey : Nat) (allocOk : Bool) :
    Int × KeyMapState × Option Nat :=
  if allocOk = false then (-ENOMEM, s, none)
  else
    let ibKey := (s.nextIbKey + 1) % 4294967296
    let s1 := { s with nextIbKey := ibKey }
    if s.entries.any (fun e => e.1 == ibKey) then (-EEXIST, s1, none)
    else ((0 : Int), { s1 with entries := (ibKey, kfiKey) :: s1.entries }, some ibKey)

/-- Embedding of kfi_key_lookup_ib: search the tree by 32-bit key. -/
def kfi_key_lookup_ib (s : KeyMapState) (ibKey : Nat) : Option Nat :=
  (s.entries.find? (fun e => e.1 == ibKey)).map (fun e => e.2)

/-- Embedding of kfi_key_lookup_kfi: walk the hash bucket of the 64-bit
key, most recently added entry first. -/
def kfi_key_lookup_kfi (s : KeyMapState) (kfiKey : Nat) : Option Nat :=
  (s.entries.find? (fun e => e.2 == kfiKey)).map (fun e => e.1)

/-- Embedding of kfi_key_unregister: idempotent removal from both
structures (rb_erase removes the one matching tree node). -/
def kfi_key_unregister (s : KeyMapState) (ibKey : Nat) : KeyMapState :=
  { s with entries := s.entries.eraseP (fun e => e.1 == ibKey) }

/-! ## Memory-region cache (kfi_memory.c)

A cached MR is a `struct kfi_mr` object; the only field of it the cache
code reads back is `cache_entry`, the back-pointer to the owning cache
entry.  `kfi_get_dma_mr` obtains the object from kzalloc, which zeroes it,
so a fresh MR carries `cache_entry = none`; the cache code itself never
assigns the field.  Entry and MR object identities are drawn from a
per-state counter.

The rbtree (keyed by address, then the length and access tie-breaks of the
search loop) and the LRU list hold the same set of entries; the state
carries the set once, in LRU order (head = most recently used).  The
exact-triple search of kfi_mr_cache_get is modelled as lookup of the
(vaddr, len, access) triple in that set.  Memory allocations
(kfi_get_dma_mr and the entry kzalloc) are modelled as succeeding; their
failure paths in the C return early without touching the cache. -/

/-- The slice of struct kfi_mr the cache operations read. -/
structure KfiMrObj where
  mrId : Nat
  cache_entry : Option Nat
  deriving DecidableEq, Repr

/-- One struct kfi_mr_cache_entry.  The reference count is an `atomic_t`
(an int, so it may in principle go negative under atomic_dec). -/
structure CacheEntry where
  eid : Nat
  vaddr : Nat
  len : Nat
  access : Nat
  mrObj : KfiMrObj
  refcount : Int
  deriving DecidableEq, Repr

/-- The struct kfi_mr_cache state: the entry set in LRU order plus the
counters.  `currentEntries` mirrors the atomic counter the C code
maintains alongside the list. -/
structure MrCacheState where
  maxEntries : Nat
  entriesLru : List CacheEntry
  currentEntries : Nat
  hits : Nat
  misses : Nat
  nextId : Nat
  deriving DecidableEq, Repr

/-- Embedding of kfi_mr_cache_create. -/
def kfi_mr_cache_create (maxEntries : Nat) : MrCacheState :=
  { maxEntries := maxEntries
    entriesLru := []
    currentEntries := 0
    hits := 0
    misses := 0
    nextId := 0 }

/-- The exact-match test of the kfi_mr_cache_get search loop. -/
def cacheMatch (vaddr len access : Nat) (e : CacheEntry) : Bool :=
  e.vaddr == vaddr && e.len == len && e.access == access

/-- Embedding of kfi_mr_cache_get.  On a hit the entry's refcount is
bumped, the entry moves to the LRU head, a hit is counted and the cached
MR returned.  On a miss a fresh DMA MR and entry are created; if the cache
is full the LRU tail is evicted, but only when its refcount is zero; the
new entry is then inserted at the LRU head regardless.  The third
component lists the entries the call evicted.  The returned `KfiMrObj` has
`cache_entry = none`: the miss path never stores the back-pointer. -/
def kfi_mr_cache_get (s : MrCacheState) (vaddr len access : Nat) :
    MrCacheState × KfiMrObj × List CacheEntry :=
  match s.entriesLru.find? (cacheMatch vaddr len access) with
  | some e =>
    ({ s with
        entriesLru := { e with refcount := e.refcount + 1 } ::
          s.entriesLru.eraseP (fun x => x.eid == e.eid)
        hits := s.hits + 1 },
     e.mrObj, [])
  | none =>
    let mrObj : KfiMrObj := { mrId := s.nextId, cache_entry := none }
    let newEntry : CacheEntry :=
      { eid := s.nextId + 1
        vaddr := vaddr
        len := len
        access := access
        mrObj := mrObj
        refcount := 1 }
    let s1 := { s with misses := s.misses + 1, nextId := s.nextId + 2 }
    let evictStep : MrCacheState × List CacheEntry :=
      if s1.maxEntries ≤ s1.currentEntries then
        match s1.entriesLru.getLast? with
        | some tail =>
          if tail.refcount = 0 then
            ({ s1 with
                entriesLru := s1.entriesLru.dropLast
                currentEntries := s1.currentEntries - 1 }, [tail])
          else (s1, [])
        | none => (s1, [])
      else (s1, [])
    ({ evictStep.1 with
        entriesLru := newEntry :: evictStep.1.entriesLru
        currentEntries := evictStep.1.currentEntries + 1 },
     mrObj, evictStep.2)

/-- Embedding of kfi_mr_cache_put: follow the MR's `cache_entry`
back-pointer and decrement that entry's refcount; when the back-pointer is
NULL the function only warns ("MR not in cache") and changes nothing. -/
def kfi_mr_cache_put (s : MrCacheState) (mr : KfiMrObj) : MrCacheState :=
  match mr.cache_entry with
  | none => s
  | some eid =>
    { s with
        entriesLru := s.entriesLru.map
          (fun e => if e.eid = eid then { e with refcount := e.refcount - 1 } else e) }

/-- Embedding of kfi_mr_cache_flush: walk the LRU list and remove every
entry whose refcount is zero, deregistering its MR.  The second component
lists the removed entries in list order. -/
def kfi_mr_cache_flush (s : MrCacheState) : MrCacheState × List CacheEntry :=
  ({ s with
      entriesLru := s.entriesLru.filter (fun e => !(e.refcount == 0))
      currentEntries :=
        s.currentEntries - (s.entriesLru.filter (fun e => e.refcount == 0)).length },
   s.entriesLru.filter (fun e => e.refcount == 0))

/-! ## Theorems -/

/-- Claim C1.  For every balanced sequence of MR-cache get/put the entry
refcount should return to zero.  The code violates this: the miss path of
kfi_mr_cache_get never stores the cache-entry back-pointer in the MR it
hands out, so kfi_mr_cache_put finds `cache_entry == NULL` and returns
without decrementing.  After one get of (4096, 8192, 3) on a fresh cache
and the matching put of the returned MR, the entry's refcount is still 1;
in general put is the identity on every MR whose back-pointer is NULL,
which is every MR the cache ever returns. -/
theorem kfi_c1_balanced_get_put_leaves_refcount_one :
    ((kfi_mr_cache_put
        (kfi_mr_cache_get (kfi_mr_cache_create 32) 4096 8192 3).1
        (kfi_mr_cache_get (kfi_mr_cache_create 32) 4096 8192 3).2.1).entriesLru.map
      (fun e => e.refcount)) = [1] ∧
    (∀ s mr, mr.cache_entry = none → kfi_mr_cache_put s mr = s) := by
  constructor
  · decide
  · intro s mr h
    simp [kfi_mr_cache_put, h]

/-- Witness for kfi_c1_balanced_get_put_leaves_refcount_one: put with a
NULL back-pointer leaves a concrete cache unchanged. -/
theorem kfi_c1_witness :
    kfi_mr_cache_put (kfi_mr_cache_create 8) { mrId := 5, cache_entry := none } =
      kfi_mr_cache_create 8 :=
  kfi_c1_balanced_get_put_leaves_refcount_one.2 (kfi_mr_cache_create 8)
    { mrId := 5, cache_entry := none } rfl

/-- Claim C2 counterexample.  kfi_modify_qp never consults the current
state: a QP in RESET asked to move to RTS (with the endpoint enable
succeeding) lands in RTS, a transition not listed in spec section 4.6. -/
theorem kfi_c2_reset_to_rts_counterexample :
    kfi_modify_qp
        { state := IbQpState.reset, vniFromMount := 0, authVni := none }
        IbQpState.rts
        { maskHasState := true, maskHasAv := false, authAllocOk := true,
          defaultVni := none, setupAvRet := 0, enableRet := 0 } =
      (0, { state := IbQpState.rts, vniFromMount := 0, authVni := none }) := by
  decide

/-- Claim C2, amended.  kfi_modify_qp moves the QP to exactly the
requested state when that state is one of INIT, RTR, RTS, ERR and the
associated auth/AV/enable step succeeds, regardless of the current state;
otherwise the state is unchanged.  Transitions outside the section 4.6
list, such as RESET to RTS, are therefore observable. -/
theorem kfi_c2_modify_qp_state_characterization
    (qp : KfiQp) (target : IbQpState) (env : ModifyEnv) :
    (kfi_modify_qp qp target env).2.state = qp.state ∨
    ((kfi_modify_qp qp target env).2.state = target ∧
      (target = IbQpState.init ∨ target = IbQpState.rtr ∨
       target = IbQpState.rts ∨ target = IbQpState.err)) := by
  by_cases hm : env.maskHasState = false
  · simp [kfi_modify_qp, hm]
  · cases target
    · simp [kfi_modify_qp, hm]
    · by_cases h : (kfi_get_auth_key qp.vniFromMount env.authAllocOk env.defaultVni).1 = 0
      · right
        constructor
        · simp [kfi_modify_qp, hm, h]
        · exact Or.inl rfl
      · left
        simp [kfi_modify_qp, hm, h]
    · by_cases h : env.maskHasAv = true ∧ ¬env.setupAvRet = 0
      · left
        simp [kfi_modify_qp, hm, h]
      · right
        constructor
        · simp [kfi_modify_qp, hm, h]
        · exact Or.inr (Or.inl rfl)
    · by_cases h : env.enableRet = 0
      · right
        constructor
        · simp [kfi_modify_qp, hm, h]
        · exact Or.inr (Or.inr (Or.inl rfl))
      · left
        simp [kfi_modify_qp, hm, h]
    · simp [kfi_modify_qp, hm]
    · simp [kfi_modify_qp, hm]
    · right
      constructor
      · simp [kfi_modify_qp, hm]
      · exact Or.inr (Or.inr (Or.inr rfl))

/-- Claim C3.  The parser's results at the spec's boundary inputs.  The
empty string, "foo=bar" and the valid inputs behave as specified, but a
NULL options string returns -ENOMEM (kstrdup of NULL), not -EINVAL, and
"vni=65536" returns 0 (success) while leaving the out-parameter unwritten:
the UINT16_MAX range check guards only the store, not the return value. -/
theorem kfi_c3_parse_vni_boundary_results :
    kfi_parse_vni_from_options (some "".toList) = (-EINVAL, none) ∧
    kfi_parse_vni_from_options (some "foo=bar".toList) = (-EINVAL, none) ∧
    kfi_parse_vni_from_options (some "vni=65535".toList) = (0, some 65535) ∧
    kfi_parse_vni_from_options (some "a=1,vni=42,b=2".toList) = (0, some 42) ∧
    kfi_parse_vni_from_options none = (-ENOMEM, none) ∧
    kfi_parse_vni_from_options (some "vni=65536".toList) = (0, none) := by
  decide

/-- Claim C4 counterexample.  A work request with opcode SEND_WITH_IMM and
one SGE, posted via kfi_post_send, does not result in a single contiguous
fabric send: the C switch has no IB_WR_SEND_WITH_IMM case, so the request
falls to the default branch and fails with -EOPNOTSUPP, with no fabric
call made. -/
theorem kfi_c4_send_with_imm_counterexample :
    kfi_post_send true
        [{ wrId := 77, opcode := IbWrOpcode.send_with_imm, numSge := 1, fabricRet := 0 }] =
      (-EOPNOTSUPP, some 0, []) := by
  decide

/-- Claim C4, amended.  For opcode SEND the claimed shapes hold: one SGE
submits a single contiguous kfi_send, two to sixteen SGEs submit one
vectored kfi_sendv, more than sixteen fail with -EINVAL before any fabric
call.  SEND_WITH_IMM, however, is rejected with -EOPNOTSUPP by the
kfi_post_send opcode switch and submits nothing. -/
theorem kfi_c4_send_sge_shapes (id n : Nat) (r : Int) :
    (kfi_post_send true [{ wrId := id, opcode := IbWrOpcode.send, numSge := 1, fabricRet := r }] =
      (sendRetOf r, if sendRetOf r = 0 then none else some 0,
        [{ op := FabricOp.send id, ret := r }])) ∧
    (1 < n → n ≤ KFI_MAX_SGE →
      kfi_post_send true [{ wrId := id, opcode := IbWrOpcode.send, numSge := n, fabricRet := r }] =
        (sendRetOf r, if sendRetOf r = 0 then none else some 0,
          [{ op := FabricOp.sendv id n, ret := r }])) ∧
    (KFI_MAX_SGE < n →
      kfi_post_send true [{ wrId := id, opcode := IbWrOpcode.send, numSge := n, fabricRet := r }] =
        (-EINVAL, some 0, [])) ∧
    (kfi_post_send true
        [{ wrId := id, opcode := IbWrOpcode.send_with_imm, numSge := n, fabricRet := r }] =
      (-EOPNOTSUPP, some 0, [])) := by
  refine ⟨?_, ?_, ?_, ?_⟩
  · simp only [kfi_post_send, postSendGo, wrStep, kfi_do_send]
    norm_num
    by_cases h : sendRetOf r = 0 <;> simp [h]
  · intro h1 h2
    simp only [kfi_post_send, postSendGo, wrStep, kfi_do_send]
    simp only [h1, if_true, Nat.not_lt.mpr h2, if_false]
    by_cases h : sendRetOf r = 0 <;> simp [h, Nat.not_lt.mpr h2, h1]
  · intro h
    have h1 : 1 < n := lt_trans (by decide) h
    simp [kfi_post_send, postSendGo, wrStep, kfi_do_send, h, h1, EINVAL]
  · simp [kfi_post_send, postSendGo, wrStep, EOPNOTSUPP]

/-- Witness for kfi_c4_send_sge_shapes: a two-SGE SEND accepted by the
fabric becomes exactly one vectored submission. -/
theorem kfi_c4_witness :
    kfi_post_send true [{ wrId := 5, opcode := IbWrOpcode.send, numSge := 2, fabricRet := 0 }] =
      (0, none, [{ op := FabricOp.sendv 5 2, ret := 0 }]) :=
  (kfi_c4_send_sge_shapes 5 2 0).2.1 (by decide) (by decide)

/-- Claim C9.  At the RESET to INIT transition the VNI is resolved first
from the QP's mount-option field (when non-zero, the not-set sentinel
being 0), then from the provider's default-VNI query; when neither source
is available the call fails with -EACCES and the QP stays in RESET, with
its auth_key NULL. -/
theorem kfi_c9_reset_to_init_vni_priority (qp : KfiQp) (env : ModifyEnv)
    (hs : qp.state = IbQpState.reset) (hm : env.maskHasState = true)
    (ha : env.authAllocOk = true) :
    (qp.vniFromMount ≠ 0 →
      kfi_modify_qp qp IbQpState.init env =
        (0, { qp with state := IbQpState.init, authVni := some qp.vniFromMount })) ∧
    (∀ d : Int, qp.vniFromMount = 0 → env.defaultVni = some d →
      kfi_modify_qp qp IbQpState.init env =
        (0, { qp with state := IbQpState.init, authVni := some ((d % 65536).toNat) })) ∧
    (qp.vniFromMount = 0 → env.defaultVni = none →
      kfi_modify_qp qp IbQpState.init env = (-EACCES, { qp with authVni := none }) ∧
      (kfi_modify_qp qp IbQpState.init env).2.state = IbQpState.reset) := by
  refine ⟨?_, ?_, ?_⟩
  · intro hv
    simp [kfi_modify_qp, kfi_get_auth_key, hm, ha, hv]
  · intro d hv hd
    simp [kfi_modify_qp, kfi_get_auth_key, hm, ha, hv, hd]
  · intro hv hd
    constructor
    · simp [kfi_modify_qp, kfi_get_auth_key, hm, ha, hv, hd, EACCES]
    · simp [kfi_modify_qp, kfi_get_auth_key, hm, ha, hv, hd, EACCES, hs]

/-- Witness for kfi_c9_reset_to_init_vni_priority: a QP in RESET with
mount VNI 7 moves to INIT carrying auth VNI 7. -/
theorem kfi_c9_witness :
    kfi_modify_qp
        { state := IbQpState.reset, vniFromMount := 7, authVni := none }
        IbQpState.init
        { maskHasState := true, maskHasAv := false, authAllocOk := true,
          defaultVni := none, setupAvRet := 0, enableRet := 0 } =
      (0, { state := IbQpState.init, vniFromMount := 7, authVni := some 7 }) :=
  (kfi_c9_reset_to_init_vni_priority
      { state := IbQpState.reset, vniFromMount := 7, authVni := none }
      { maskHasState := true, maskHasAv := false, authAllocOk := true,
        defaultVni := none, setupAvRet := 0, enableRet := 0 }
      rfl rfl rfl).1 (by decide)

/-- Claim C10.  A mount-option VNI of 0 is indistinguishable from an
absent one: the parser accepts "vni=0" (writing 0 with a success return),
but kfi_get_auth_key honors vni_from_mount only when it is non-zero, so a
QP with vni_from_mount = 0 falls through to the provider's default-VNI
query, and fails with -EACCES when that query has no answer. -/
theorem kfi_c10_zero_mount_vni_falls_through (d : Int) :
    kfi_parse_vni_from_options (some "vni=0".toList) = (0, some 0) ∧
    kfi_get_auth_key 0 true (some d) = (0, some ((d % 65536).toNat)) ∧
    kfi_get_auth_key 0 true none = (-EACCES, none) := by
  refine ⟨by decide, ?_, by decide⟩
  simp [kfi_get_auth_key]

/-- Claim C6.  kfi_poll_cq returns zero completions when the bulk read
reports the transient code, and for a successful bulk read of n entries it
returns n completions whose request identifier is the entry's opaque
context, whose byte length is the entry's length, whose status is success
and whose opcode is derived from the flag bits in the order send, recv,
read, write with send as the default. -/
theorem kfi_c6_poll_cq_translation (l : List CqDataEntry) (i : Nat) (hi : i < l.length) :
    kfi_poll_cq CqReadRes.again = (0, []) ∧
    (kfi_poll_cq (CqReadRes.ok l)).1 = (l.length : Int) ∧
    (kfi_poll_cq (CqReadRes.ok l)).2.length = l.length ∧
    (∀ hw : i < (kfi_poll_cq (CqReadRes.ok l)).2.length,
      ((kfi_poll_cq (CqReadRes.ok l)).2.get ⟨i, hw⟩).wrId = (l.get ⟨i, hi⟩).opContext ∧
      ((kfi_poll_cq (CqReadRes.ok l)).2.get ⟨i, hw⟩).status = IbWcStatus.success ∧
      ((kfi_poll_cq (CqReadRes.ok l)).2.get ⟨i, hw⟩).byteLen = some (l.get ⟨i, hi⟩).len ∧
      ((kfi_poll_cq (CqReadRes.ok l)).2.get ⟨i, hw⟩).opcode =
        some (if (l.get ⟨i, hi⟩).hasSendFlag then IbWcOpcode.send
              else if (l.get ⟨i, hi⟩).hasRecvFlag then IbWcOpcode.recv
              else if (l.get ⟨i, hi⟩).hasReadFlag then IbWcOpcode.rdma_read
              else if (l.get ⟨i, hi⟩).hasWriteFlag then IbWcOpcode.rdma_write
              else IbWcOpcode.send)) := by
  refine ⟨rfl, rfl, by simp [kfi_poll_cq], ?_⟩
  intro hw
  refine ⟨?_, ?_, ?_, ?_⟩ <;>
    simp [kfi_poll_cq, List.get_eq_getElem, renderSuccess, kfiFlagsToIbOpcode]

/-- Witness for kfi_c6_poll_cq_translation: one successful recv-flagged
entry renders as one success completion with opcode recv. -/
theorem kfi_c6_witness :
    ((kfi_poll_cq (CqReadRes.ok
        [{ opContext := 42, len := 512, hasSendFlag := false, hasRecvFlag := true,
           hasReadFlag := false, hasWriteFlag := false }])).2.get ⟨0, by decide⟩).wrId = 42 :=
  ((kfi_c6_poll_cq_translation
      [{ opContext := 42, len := 512, hasSendFlag := false, hasRecvFlag := true,
         hasReadFlag := false, hasWriteFlag := false }] 0 (by decide)).2.2.2 (by decide)).1

/-- Claim C7.  From any state whose 32-bit allocation counter is at least
0x10000 and has not wrapped, a successful kfi_key_register of a native key
k returns an external key E at least 0x10000 that differs from the key of
every previously live entry, and afterwards looking E up in the tree
yields k and looking k up in the hash yields E. -/
theorem kfi_c7_register_lookup_roundtrip (s : KeyMapState) (k E : Nat) (s2 : KeyMapState)
    (hlo : 65536 ≤ s.nextIbKey) (hhi : s.nextIbKey + 1 < 4294967296)
    (hreg : kfi_key_register s k true = (0, s2, some E)) :
    65536 ≤ E ∧ (∀ e ∈ s.entries, e.1 ≠ E) ∧
    kfi_key_lookup_ib s2 E = some k ∧ kfi_key_lookup_kfi s2 k = some E := by
  have hmod : (s.nextIbKey + 1) % 4294967296 = s.nextIbKey + 1 := Nat.mod_eq_of_lt hhi
  by_cases hdup : s.entries.any (fun e => e.1 == (s.nextIbKey + 1) % 4294967296)
  · simp [kfi_key_register, hdup] at hreg
  · have hreg2 := hreg
    simp [kfi_key_register, hdup] at hreg2
    obtain ⟨hs2, hE⟩ := hreg2
    subst hE
    have hnot : ∀ e ∈ s.entries, e.1 ≠ (s.nextIbKey + 1) % 4294967296 := by
      intro e he heq
      exact hdup (List.any_eq_true.mpr ⟨e, he, by simp [heq]⟩)
    refine ⟨?_, hnot, ?_, ?_⟩
    · rw [hmod]
      omega
    · rw [← hs2]
      simp [kfi_key_lookup_ib]
    · rw [← hs2]
      simp [kfi_key_lookup_kfi]

/-- Witness for kfi_c7_register_lookup_roundtrip: registering the 64-bit
key 0x123456789ABCDEF0 in the initial state yields external key 0x10001,
and both lookups round-trip. -/
theorem kfi_c7_witness :
    65536 ≤ 65537 ∧
    (∀ e ∈ ([] : List (Nat × Nat)), e.1 ≠ 65537) ∧
    kfi_key_lookup_ib { nextIbKey := 65537, entries := [(65537, 1311768467463790320)] } 65537 =
      some 1311768467463790320 ∧
    kfi_key_lookup_kfi { nextIbKey := 65537, entries := [(65537, 1311768467463790320)] }
      1311768467463790320 = some 65537 :=
  kfi_c7_register_lookup_roundtrip { nextIbKey := 65536, entries := [] }
    1311768467463790320 65537
    { nextIbKey := 65537, entries := [(65537, 1311768467463790320)] }
    (by decide) (by decide) (by decide)

/-- Helper: a non-zero helper return implies the fabric answer was
negative (a non-negative fabric answer always maps to 0). -/
theorem sendRetOf_ne_zero_neg (r : Int) (h : sendRetOf r ≠ 0) : r < 0 := by
  by_cases h1 : r < 0
  · exact h1
  · exfalso
    apply h
    unfold sendRetOf
    have h2 : ¬(r < 0 ∧ r ≠ -KFI_EAGAIN) := fun hc => h1 hc.1
    rw [if_neg h2, if_neg]
    intro he
    apply h1
    rw [he]
    decide

/-- Helper: when a chain step fails, every fabric call that step made was
rejected (returned a negative code); the malformed and unsupported cases
make no fabric call at all. -/
theorem wrStep_fail_attempts_rejected (wr : SendWr) (hf : (wrStep wr).1 ≠ 0) :
    ∀ a ∈ (wrStep wr).2, a.ret < 0 := by
  intro a ha
  cases hop : wr.opcode <;>
    simp only [wrStep, hop, kfi_do_send, kfi_do_rdma_write, kfi_do_rdma_read,
      kfi_do_send_with_inv] at hf ha <;>
  first
    | simp at ha
    | (by_cases h1 : 1 < wr.numSge
       · by_cases h2 : KFI_MAX_SGE < wr.numSge
         · simp [h1, h2] at ha
         · simp [h1, h2] at ha hf
           rw [ha]
           exact sendRetOf_ne_zero_neg _ hf
       · simp [h1] at ha hf
         rw [ha]
         exact sendRetOf_ne_zero_neg _ hf)

/-- Helper: the chain loop stops at the first failing request, reports its
index, returns its code, and its attempt list is the concatenation of the
fabric calls of the requests up to and including the failing one. -/
theorem postSendGo_first_fail :
    ∀ (chain : List SendWr) (k : Nat) (hk : k < chain.length),
      (∀ i (hi : i < k), (wrStep (chain.get ⟨i, Nat.lt_trans hi hk⟩)).1 = 0) →
      (wrStep (chain.get ⟨k, hk⟩)).1 ≠ 0 →
      postSendGo chain =
        ((wrStep (chain.get ⟨k, hk⟩)).1, some k,
          ((chain.take k).flatMap (fun w => (wrStep w).2)) ++ (wrStep (chain.get ⟨k, hk⟩)).2)
  | [], k, hk, _, _ => absurd hk (by simp)
  | wr :: rest, 0, hk, hok, hfail => by
    have hfail2 : (wrStep wr).1 ≠ 0 := hfail
    simp only [postSendGo]
    rw [if_neg hfail2]
    simp
  | wr :: rest, Nat.succ j, hk, hok, hfail => by
    have h0 : (wrStep wr).1 = 0 := hok 0 (Nat.succ_pos j)
    have hk2 : j < rest.length := Nat.lt_of_succ_lt_succ hk
    have ih := postSendGo_first_fail rest j hk2
      (fun i hi => hok (i + 1) (Nat.succ_lt_succ hi)) hfail
    simp only [postSendGo]
    rw [if_pos h0, ih]
    simp [List.take_succ_cons, List.flatMap_cons, List.append_assoc]

/-- Claim C5.  When the k-th request of a chain is the first to fail
(malformed, unsupported, or rejected by the fabric), kfi_post_send returns
that request's error code, reports index k through bad_wr, and the fabric
accepted no operation for requests k onward: the accepted submissions are
exactly those of the requests before k, every fabric call made for request
k was rejected, and processing stops there. -/
theorem kfi_c5_first_failure_stops_chain (chain : List SendWr) (k : Nat) (hk : k < chain.length)
    (hok : ∀ i (hi : i < k), (wrStep (chain.get ⟨i, Nat.lt_trans hi hk⟩)).1 = 0)
    (hfail : (wrStep (chain.get ⟨k, hk⟩)).1 ≠ 0) :
    kfi_post_send true chain =
      ((wrStep (chain.get ⟨k, hk⟩)).1, some k,
        ((chain.take k).flatMap (fun w => (wrStep w).2)) ++ (wrStep (chain.get ⟨k, hk⟩)).2) ∧
    (∀ a ∈ (wrStep (chain.get ⟨k, hk⟩)).2, a.ret < 0) ∧
    (∀ a ∈ (kfi_post_send true chain).2.2, 0 ≤ a.ret →
      a ∈ (chain.take k).flatMap (fun w => (wrStep w).2)) := by
  have hmain := postSendGo_first_fail chain k hk hok hfail
  have hrej := wrStep_fail_attempts_rejected (chain.get ⟨k, hk⟩) hfail
  have hpost : kfi_post_send true chain = postSendGo chain := rfl
  refine ⟨by rw [hpost, hmain], hrej, ?_⟩
  intro a ha hnn
  rw [hpost, hmain] at ha
  rcases List.mem_append.mp ha with h | h
  · exact h
  · exact absurd (hrej a h) (not_lt.mpr hnn)

/-- Witness for kfi_c5_first_failure_stops_chain: in a two-request chain
whose second request has 17 SGEs, the first request's send is submitted,
the second fails with -EINVAL and is reported as bad_wr. -/
theorem kfi_c5_witness :
    kfi_post_send true
        [{ wrId := 1, opcode := IbWrOpcode.send, numSge := 1, fabricRet := 0 },
         { wrId := 2, opcode := IbWrOpcode.send, numSge := 17, fabricRet := 0 }] =
      (-EINVAL, some 1, [{ op := FabricOp.send 1, ret := 0 }]) :=
  (kfi_c5_first_failure_stops_chain
      [{ wrId := 1, opcode := IbWrOpcode.send, numSge := 1, fabricRet := 0 },
       { wrId := 2, opcode := IbWrOpcode.send, numSge := 17, fabricRet := 0 }]
      1 (by decide)
      (fun i hi => by
        have h0 : i = 0 := by omega
        subst h0
        exact rfl)
      (by decide)).1

/-- Helper: decrementing the refcount of one entry identity preserves the
entry identities of the list. -/
theorem map_eid_after_dec (l : List CacheEntry) (eid : Nat) :
    ((l.map (fun e => if e.eid = eid then { e with refcount := e.refcount - 1 } else e)).map
      (fun e => e.eid)) = l.map (fun e => e.eid) := by
  induction l with
  | nil => rfl
  | cons e t ih => by_cases h : e.eid = eid <;> simp [h, ih]

/-- Claim C8.  No MR-cache operation evicts a live entry: everything
kfi_mr_cache_get evicts has refcount zero; kfi_mr_cache_flush removes
exactly the entries with refcount zero and keeps exactly the others;
kfi_mr_cache_put removes nothing; and on a get miss with a full cache
whose LRU tail has non-zero refcount the eviction is skipped while the new
entry is still inserted ahead of all existing entries, so the cache may
exceed its nominal capacity. -/
theorem kfi_c8_no_live_eviction (s : MrCacheState) (v l a : Nat) (mr : KfiMrObj) :
    (∀ e ∈ (kfi_mr_cache_get s v l a).2.2, e.refcount = 0) ∧
    (∀ e, e ∈ (kfi_mr_cache_flush s).2 ↔ e ∈ s.entriesLru ∧ e.refcount = 0) ∧
    (∀ e, e ∈ (kfi_mr_cache_flush s).1.entriesLru ↔ e ∈ s.entriesLru ∧ e.refcount ≠ 0) ∧
    ((kfi_mr_cache_put s mr).entriesLru.map (fun e => e.eid) =
      s.entriesLru.map (fun e => e.eid)) ∧
    (s.entriesLru.find? (cacheMatch v l a) = none →
      s.maxEntries ≤ s.currentEntries →
      ∀ tail, s.entriesLru.getLast? = some tail → tail.refcount ≠ 0 →
      ∃ newE, (kfi_mr_cache_get s v l a).1.entriesLru = newE :: s.entriesLru ∧
        newE.vaddr = v ∧ newE.len = l ∧ newE.access = a ∧ newE.refcount = 1) := by
  refine ⟨?_, ?_, ?_, ?_, ?_⟩
  · intro e he
    rcases hf : s.entriesLru.find? (cacheMatch v l a) with _ | en
    · by_cases hc : s.maxEntries ≤ s.currentEntries
      · rcases hl : s.entriesLru.getLast? with _ | tail
        · simp [kfi_mr_cache_get, hf, hc, hl] at he
        · by_cases hz : tail.refcount = 0
          · simp [kfi_mr_cache_get, hf, hc, hl, hz] at he
            rw [he]
            exact hz
          · simp [kfi_mr_cache_get, hf, hc, hl, hz] at he
      · simp [kfi_mr_cache_get, hf, hc] at he
    · simp [kfi_mr_cache_get, hf] at he
  · intro e
    simp [kfi_mr_cache_flush, List.mem_filter]
  · intro e
    simp [kfi_mr_cache_flush, List.mem_filter]
  · rcases hmr : mr.cache_entry with _ | eid
    · simp [kfi_mr_cache_put, hmr]
    · simp only [kfi_mr_cache_put, hmr]
      exact map_eid_after_dec s.entriesLru eid
  · intro hfind hc tail hl hz
    refine ⟨{ eid := s.nextId + 1, vaddr := v, len := l, access := a,
              mrObj := { mrId := s.nextId, cache_entry := none }, refcount := 1 },
            ?_, rfl, rfl, rfl, rfl⟩
    simp [kfi_mr_cache_get, hfind, hc, hl, hz]

/-- Witness for kfi_c8_no_live_eviction: a full single-slot cache whose
only entry is live takes a miss without evicting and grows to two
entries. -/
theorem kfi_c8_witness :
    ∃ newE,
      (kfi_mr_cache_get
          { maxEntries := 1
            entriesLru := [{ eid := 0, vaddr := 1, len := 1, access := 1,
                             mrObj := { mrId := 9, cache_entry := none }, refcount := 1 }]
            currentEntries := 1, hits := 0, misses := 0, nextId := 10 }
          2 2 2).1.entriesLru =
        newE :: [{ eid := 0, vaddr := 1, len := 1, access := 1,
                   mrObj := { mrId := 9, cache_entry := none }, refcount := 1 }] ∧
      newE.vaddr = 2 ∧ newE.len = 2 ∧ newE.access = 2 ∧ newE.refcount = 1 :=
  (kfi_c8_no_live_eviction
      { maxEntries := 1
        entriesLru := [{ eid := 0, vaddr := 1, len := 1, access := 1,
                         mrObj := { mrId := 9, cache_entry := none }, refcount := 1 }]
        currentEntries := 1, hits := 0, misses := 0, nextId := 10 }
      2 2 2 { mrId := 9, cache_entry := none }).2.2.2.2
    (by decide) (by decide)
    { eid := 0, vaddr := 1, len := 1, access := 1,
      mrObj := { mrId := 9, cache_entry := none }, refcount := 1 }
    (by decide) (by decide)

end KfiNfs
